import Mathlib

/-!
Shallow embedding of the financial-term-dictionary app:
the Definition Provider (src/services/geminiService.ts) and the
Search UI Controller (src/App.tsx).

JavaScript values that can be thrown/rejected with are modelled by
`JsValue`; the outcome of the remote `generateContent` call by
`ApiOutcome`; the React state of `App` by `AppState`; the promise
settlement seen by `handleSearch`'s `await` by `Except JsValue String`.
-/

/-- A JavaScript value as it appears to a `catch` clause or as a
promise rejection value: either an `Error` instance carrying a
`message`, a plain string, or any other value. -/
inductive JsValue where
  | jsError (msg : String)
  | jsString (s : String)
  | jsOther
  deriving DecidableEq, Repr

/-- Outcome of the remote `ai.models.generateContent` call inside the
`try` block of `getFinancialTermDefinition`: it either fulfills with a
text or rejects with some JavaScript value. -/
inductive ApiOutcome where
  | success (text : String)
  | failure (e : JsValue)
  deriving DecidableEq, Repr

/-- The fixed rejection message of `geminiService.ts` line 16. -/
def configErrorMsg : String := "API 키가 설정되지 않았습니다. 애플리케이션 설정을 확인해주세요."

/-- The prefix of the service-encoded API error string
(`geminiService.ts` line 35, checked in `App.tsx` line 115). -/
def apiErrorPrefix : String := "API 호출 중 오류가 발생했습니다:"

/-- The service's unknown-error string (`geminiService.ts` line 37). -/
def unknownServiceError : String := "알 수 없는 오류가 발생하여 정의를 가져올 수 없습니다."

/-- The prefix the Controller sniffs for the unknown-error string
(`App.tsx` line 115): a proper prefix of `unknownServiceError`. -/
def unknownErrorPrefix : String := "알 수 없는 오류가 발생하여"

/-- The Controller's generic fallback message for a caught value that
is not an `Error` (`App.tsx` line 121). -/
def genericFallbackMsg : String := "알 수 없는 오류가 발생했습니다."

/-- `getFinancialTermDefinition` from `src/services/geminiService.ts`.
`keyPresent` models the truthiness of `API_KEY`; `outcome` models how
the remote call would settle if issued.  The result is the settlement
of the returned promise: `.error` is a rejection, `.ok` a fulfillment.
When the key is absent the function rejects with a plain string (not
an `Error`) before any network call; otherwise every failure of the
remote call is caught and encoded as a prefixed string. -/
def getFinancialTermDefinition (keyPresent : Bool) (_term : String)
    (outcome : ApiOutcome) : Except JsValue String :=
  if !keyPresent then
    .error (.jsString configErrorMsg)
  else
    match outcome with
    | .success text => .ok text
    | .failure e =>
      match e with
      | .jsError msg => .ok (apiErrorPrefix ++ " " ++ msg)
      | _ => .ok unknownServiceError

/-- The React state of the `App` component (`src/App.tsx` lines
101-104): four `useState` hooks. -/
structure AppState where
  searchedTerm : Option String
  definition : Option String
  isLoading : Bool
  error : Option String
  deriving DecidableEq, Repr

/-- The initial state of `App`: all hooks at their initial values. -/
def initState : AppState :=
  { searchedTerm := none, definition := none, isLoading := false, error := none }

/-- The synchronous prefix of `handleSearch` (`App.tsx` lines
107-110): set loading, clear error and definition, record the term. -/
def startSearch (term : String) (_s : AppState) : AppState :=
  { searchedTerm := some term, definition := none, isLoading := true, error := none }

/-- JavaScript `String.prototype.startsWith`, written structurally
over the character lists so it evaluates in the kernel. -/
def jsStartsWith (s pre : String) : Bool :=
  pre.data.isPrefixOf s.data

/-- The continuation of `handleSearch` after the awaited provider
promise settles (`App.tsx` lines 113-125): prefix-sniff a fulfilled
string into error or definition, extract a message from a rejection
value, and in all cases clear the loading flag (the `finally`). -/
def handleResult (res : Except JsValue String) (s : AppState) : AppState :=
  match res with
  | .ok result =>
    if jsStartsWith result apiErrorPrefix || jsStartsWith result unknownErrorPrefix then
      { s with error := some result, isLoading := false }
    else
      { s with definition := some result, isLoading := false }
  | .error e =>
    match e with
    | .jsError msg => { s with error := some msg, isLoading := false }
    | _ => { s with error := some genericFallbackMsg, isLoading := false }

/-- JavaScript `String.prototype.trim()`: strip whitespace from both
ends, written structurally over the character list. -/
def jsTrim (s : String) : String :=
  ⟨((s.data.dropWhile Char.isWhitespace).reverse.dropWhile Char.isWhitespace).reverse⟩

/-- The guard of `SearchForm.handleSubmit` (`App.tsx` line 27):
submission proceeds only if the trimmed input is non-empty and no
request is loading. -/
def submitAllowed (input : String) (s : AppState) : Bool :=
  !(jsTrim input == "" || s.isLoading)

/-- One whole form submission, run to completion: the guard, then
`handleSearch` on the trimmed term, then the settlement continuation.
The second component counts how many times the Provider was invoked. -/
def submitWithCalls (input : String) (keyPresent : Bool)
    (outcome : ApiOutcome) (s : AppState) : AppState × Nat :=
  if submitAllowed input s then
    let t := jsTrim input
    (handleResult (getFinancialTermDefinition keyPresent t outcome) (startSearch t s), 1)
  else
    (s, 0)

/-- The state after a whole form submission. -/
def submit (input : String) (keyPresent : Bool)
    (outcome : ApiOutcome) (s : AppState) : AppState :=
  (submitWithCalls input keyPresent outcome s).1

/-- The sequence of states the Controller passes through during a form
submission: the prior state, then (when the guard passes) the loading
state, then the settled state. -/
def submitTrace (input : String) (keyPresent : Bool)
    (outcome : ApiOutcome) (s : AppState) : List AppState :=
  if submitAllowed input s then
    let t := jsTrim input
    let s1 := startSearch t s
    [s, s1, handleResult (getFinancialTermDefinition keyPresent t outcome) s1]
  else
    [s]

/-- JavaScript truthiness of a `string | null` React state value:
truthy iff non-null and non-empty. -/
def truthy : Option String → Bool
  | none => false
  | some s => !(s == "")

/-- The four views `renderContent` can select (`App.tsx` lines
128-139). -/
inductive View where
  | loading
  | errorView (message : String)
  | result (term definition : String)
  | initial
  deriving DecidableEq, Repr

/-- `renderContent` from `App.tsx` lines 128-139: an if-chain over the
state, using JavaScript truthiness on the nullable strings. -/
def renderContent (s : AppState) : View :=
  if s.isLoading then .loading
  else if truthy s.error then .errorView (s.error.getD "")
  else if truthy s.definition && truthy s.searchedTerm then
    .result (s.searchedTerm.getD "") (s.definition.getD "")
  else .initial

/-- The message `handleSearch`'s catch clause derives from a rejection
value (`App.tsx` line 121): the `Error`'s message when the value is an
`Error`, else the generic fallback. -/
def jsValueMessage : JsValue → String
  | .jsError msg => msg
  | _ => genericFallbackMsg

/-- One submission attempt viewed as a state step (the Provider
settlement modelled separately by `handleResult`): the guard either
blocks it or the synchronous prefix of `handleSearch` runs. -/
def submitStep (input : String) (s : AppState) : AppState :=
  if submitAllowed input s then startSearch (jsTrim input) s else s

/-- States the Controller can be in after any sequence of submission
attempts and settlements of in-flight Provider promises.  A settlement
can only arrive while the loading flag is set, since only the request
that set the flag clears it and the guard blocks overlapping starts. -/
inductive Reachable : AppState → Prop where
  | init : Reachable initState
  | submit (input : String) (s : AppState) :
      Reachable s → Reachable (submitStep input s)
  | resolve (res : Except JsValue String) (s : AppState) :
      Reachable s → s.isLoading = true → Reachable (handleResult res s)

set_option maxRecDepth 4096

theorem handleResult_isLoading (res : Except JsValue String) (s : AppState) :
    (handleResult res s).isLoading = false := by
  cases res with
  | ok r =>
    by_cases h : (jsStartsWith r apiErrorPrefix || jsStartsWith r unknownErrorPrefix) = true
    · simp [handleResult, h]
    · simp [handleResult, Bool.eq_false_iff.mpr h]
  | error e => cases e <;> rfl

theorem prefix_match_ne_empty (r : String)
    (h : (jsStartsWith r apiErrorPrefix || jsStartsWith r unknownErrorPrefix) = true) :
    (r == "") = false := by
  by_cases hr : r = ""
  · subst hr; exact absurd h (by decide)
  · exact beq_eq_false_iff_ne.mpr hr

theorem submitAllowed_not_loading (input : String) (s : AppState)
    (h : submitAllowed input s = true) : s.isLoading = false := by
  simp [submitAllowed] at h
  exact h.2

/-- C1: every string the Provider resolves with that starts with the
API-error prefix or with the sniffed prefix of the unknown-error
string makes the Controller end the submission in the Error state with
that exact string displayed — even when the string is legitimate
definition text that merely happens to start with such a prefix. -/
theorem C1_error_prefixed_resolution_displays_error (t r : String) (s : AppState)
    (h : (jsStartsWith r apiErrorPrefix || jsStartsWith r unknownErrorPrefix) = true) :
    handleResult (.ok r) (startSearch t s) =
      { searchedTerm := some t, definition := none, isLoading := false,
        error := some r } ∧
    renderContent (handleResult (.ok r) (startSearch t s)) = .errorView r := by
  have hne := prefix_match_ne_empty r h
  constructor
  · simp [handleResult, startSearch, h]
  · simp [handleResult, startSearch, h, renderContent, truthy, hne]

/-- C1 witness: legitimate definition text beginning with the sniffed
unknown-error prefix is misclassified into the Error state. -/
theorem C1_error_prefixed_resolution_displays_error_witness :
    (jsStartsWith "알 수 없는 오류가 발생하여도 분산투자는 위험을 줄입니다."
        apiErrorPrefix ||
      jsStartsWith "알 수 없는 오류가 발생하여도 분산투자는 위험을 줄입니다."
        unknownErrorPrefix) = true ∧
    (handleResult (.ok "알 수 없는 오류가 발생하여도 분산투자는 위험을 줄입니다.")
        (startSearch "분산투자" initState) =
      { searchedTerm := some "분산투자", definition := none, isLoading := false,
        error := some "알 수 없는 오류가 발생하여도 분산투자는 위험을 줄입니다." } ∧
    renderContent (handleResult
        (.ok "알 수 없는 오류가 발생하여도 분산투자는 위험을 줄입니다.")
        (startSearch "분산투자" initState)) =
      .errorView "알 수 없는 오류가 발생하여도 분산투자는 위험을 줄입니다.") :=
  ⟨by decide,
   C1_error_prefixed_resolution_displays_error "분산투자"
     "알 수 없는 오류가 발생하여도 분산투자는 위험을 줄입니다." initState (by decide)⟩

/-- C2: every string the Provider resolves with that starts with
neither error prefix makes the Controller end the submission in the
Success state: the searched term is recorded and the definition is
exactly that string. -/
theorem C2_non_prefixed_resolution_is_success (t r : String) (s : AppState)
    (h : (jsStartsWith r apiErrorPrefix || jsStartsWith r unknownErrorPrefix) = false) :
    handleResult (.ok r) (startSearch t s) =
      { searchedTerm := some t, definition := some r, isLoading := false,
        error := none } := by
  simp [handleResult, startSearch, h]

/-- C2 witness: the spec scenario, term "ESG" with a markdown body. -/
theorem C2_non_prefixed_resolution_is_success_witness :
    (jsStartsWith "**ESG**는 환경(E), 사회(S), 지배구조(G)입니다." apiErrorPrefix ||
      jsStartsWith "**ESG**는 환경(E), 사회(S), 지배구조(G)입니다." unknownErrorPrefix)
        = false ∧
    handleResult (.ok "**ESG**는 환경(E), 사회(S), 지배구조(G)입니다.")
        (startSearch "ESG" initState) =
      { searchedTerm := some "ESG",
        definition := some "**ESG**는 환경(E), 사회(S), 지배구조(G)입니다.",
        isLoading := false, error := none } :=
  ⟨by decide,
   C2_non_prefixed_resolution_is_success "ESG"
     "**ESG**는 환경(E), 사회(S), 지배구조(G)입니다." initState (by decide)⟩

/-- C3: every failure caught inside the Provider is returned as a
fulfilled string, never propagated as a rejection: the prefixed
API-error string when the caught value is an `Error` carrying a
message, the fixed unknown-error string otherwise. -/
theorem C3_provider_encodes_caught_failures (term : String) (e : JsValue) :
    getFinancialTermDefinition true term (.failure e) =
      .ok (match e with
            | .jsError msg => apiErrorPrefix ++ " " ++ msg
            | _ => unknownServiceError) := by
  cases e <;> rfl

/-- C4: with the API credential absent, the Provider rejects with the
fixed configuration-error message for every term, independently of any
would-be network outcome (no network call is consulted). -/
theorem C4_missing_key_rejects_immediately (term : String) (outcome : ApiOutcome) :
    getFinancialTermDefinition false term outcome = .error (.jsString configErrorMsg) :=
  rfl

/-- C5 counterexample: with the credential missing, the Controller
displays the generic fallback message, not the configuration-error
message — the Provider rejects with a plain string, so the `e
instanceof Error` test in the catch clause fails. -/
theorem C5_counterexample_missing_key_shows_fallback :
    renderContent (submit "ESG" false (.success "정의") initState) =
      .errorView genericFallbackMsg ∧
    genericFallbackMsg ≠ configErrorMsg := by decide

/-- C5 amended: if the API credential is missing, every submitted term
ends in the Error state displaying the same fixed string for every
such submission — but that string is the generic fallback
"알 수 없는 오류가 발생했습니다.", not the configuration-error message. -/
theorem C5_amended_missing_key_shows_fixed_fallback (input : String)
    (outcome : ApiOutcome) (s : AppState) (h : submitAllowed input s = true) :
    (submit input false outcome s).error = some genericFallbackMsg ∧
    renderContent (submit input false outcome s) = .errorView genericFallbackMsg := by
  have hb : (genericFallbackMsg == "") = false := by decide
  simp [submit, submitWithCalls, h, getFinancialTermDefinition, handleResult,
        startSearch, renderContent, truthy, hb]

/-- C5 amended witness: at the term "ESG" from the initial state. -/
theorem C5_amended_missing_key_shows_fixed_fallback_witness :
    submitAllowed "ESG" initState = true ∧
    ((submit "ESG" false (.success "x") initState).error = some genericFallbackMsg ∧
     renderContent (submit "ESG" false (.success "x") initState) =
       .errorView genericFallbackMsg) :=
  ⟨by decide,
   C5_amended_missing_key_shows_fixed_fallback "ESG" (.success "x") initState (by decide)⟩

/-- C6: an allowed submission (non-empty trimmed term, not already
loading) passes through the Loading state exactly once along its
trace, and that Loading state has the prior definition and error
cleared and the trimmed submitted term recorded. -/
theorem C6_submission_enters_loading_once (input : String) (kp : Bool)
    (outcome : ApiOutcome) (s : AppState) (h : submitAllowed input s = true) :
    (submitTrace input kp outcome s).filter (fun st => st.isLoading) =
      [startSearch (jsTrim input) s] ∧
    (startSearch (jsTrim input) s).isLoading = true ∧
    (startSearch (jsTrim input) s).definition = none ∧
    (startSearch (jsTrim input) s).error = none ∧
    (startSearch (jsTrim input) s).searchedTerm = some (jsTrim input) := by
  have hl := submitAllowed_not_loading input s h
  have hr := handleResult_isLoading
    (getFinancialTermDefinition kp (jsTrim input) outcome) (startSearch (jsTrim input) s)
  simp only [startSearch] at hr
  refine ⟨?_, rfl, rfl, rfl, rfl⟩
  simp [submitTrace, h, List.filter, hl, hr, startSearch]

/-- C6 witness: submitting "ESG" from the initial state. -/
theorem C6_submission_enters_loading_once_witness :
    submitAllowed "ESG" initState = true ∧
    ((submitTrace "ESG" true (.success "x") initState).filter
        (fun st => st.isLoading) = [startSearch (jsTrim "ESG") initState] ∧
     (startSearch (jsTrim "ESG") initState).isLoading = true ∧
     (startSearch (jsTrim "ESG") initState).definition = none ∧
     (startSearch (jsTrim "ESG") initState).error = none ∧
     (startSearch (jsTrim "ESG") initState).searchedTerm = some (jsTrim "ESG")) :=
  ⟨by decide, C6_submission_enters_loading_once "ESG" true (.success "x") initState (by decide)⟩

/-- C7: a submission whose trimmed input is empty, or made while a
request is in flight, is a no-op: the state is unchanged and the
Provider is invoked zero times. -/
theorem C7_blocked_submission_is_noop (input : String) (kp : Bool)
    (outcome : ApiOutcome) (s : AppState)
    (h : jsTrim input = "" ∨ s.isLoading = true) :
    submitWithCalls input kp outcome s = (s, 0) := by
  have ha : submitAllowed input s = false := by
    rcases h with h | h <;> simp [submitAllowed, h]
  simp [submitWithCalls, ha]

/-- C7 witness: the spec scenario, whitespace-only input "  " from the
initial state. -/
theorem C7_blocked_submission_is_noop_witness :
    (jsTrim "  " = "" ∨ initState.isLoading = true) ∧
    submitWithCalls "  " true (.success "x") initState = (initState, 0) :=
  ⟨Or.inl (by decide),
   C7_blocked_submission_is_noop "  " true (.success "x") initState (Or.inl (by decide))⟩

/-- C8: an asynchronous rejection of the Provider call always lands in
the Error state; the displayed message is the rejection value's
message when it is an `Error`, otherwise the generic fallback; a
rejection with an `Error` whose message is "network down" ends in
Error("network down"). -/
theorem C8_rejection_maps_to_error_state (e : JsValue) (t : String) (s : AppState) :
    handleResult (.error e) (startSearch t s) =
      { searchedTerm := some t, definition := none, isLoading := false,
        error := some (jsValueMessage e) } ∧
    handleResult (.error (.jsError "network down")) (startSearch "ESG" initState) =
      { searchedTerm := some "ESG", definition := none, isLoading := false,
        error := some "network down" } ∧
    renderContent (handleResult (.error (.jsError "network down"))
      (startSearch "ESG" initState)) = .errorView "network down" := by
  refine ⟨?_, rfl, by decide⟩
  cases e <;> rfl

theorem reachable_invariant (s : AppState) (h : Reachable s) :
    (s.isLoading = true → s.definition = none ∧ s.error = none) ∧
    ¬(s.error.isSome ∧ s.definition.isSome) := by
  induction h with
  | init => refine ⟨?_, ?_⟩ <;> simp [initState]
  | submit input s hs ih =>
    unfold submitStep
    by_cases hA : submitAllowed input s = true
    · simp [hA, startSearch]
    · simpa [hA] using ih
  | resolve res s hs hl ih =>
    obtain ⟨h1, h2⟩ := ih
    obtain ⟨hd, he⟩ := h1 hl
    cases res with
    | ok r =>
      by_cases hp : (jsStartsWith r apiErrorPrefix || jsStartsWith r unknownErrorPrefix) = true
      · simp [handleResult, hp, hd, he]
      · simp [handleResult, Bool.eq_false_iff.mpr hp, hd, he]
    | error e => cases e <;> simp [handleResult, hd, he]

/-- C9: in every reachable Controller state the rendering inputs are
consistent — the state never holds both a non-null error and a
non-null definition — and the rendering function selects exactly one
of the four views. -/
theorem C9_view_state_invariant (s : AppState) (h : Reachable s) :
    ¬(s.error.isSome ∧ s.definition.isSome) ∧
    (renderContent s = .loading ∨ (∃ m, renderContent s = .errorView m) ∨
      (∃ t d, renderContent s = .result t d) ∨ renderContent s = .initial) := by
  refine ⟨(reachable_invariant s h).2, ?_⟩
  unfold renderContent
  by_cases h1 : s.isLoading = true
  · simp [h1]
  · by_cases h2 : truthy s.error = true
    · simp [h1, h2]
    · by_cases h3 : (truthy s.definition && truthy s.searchedTerm) = true
      · simp [h1, h2, h3]
      · simp [h1, h2, h3]

/-- C9 witness: the initial state. -/
theorem C9_view_state_invariant_witness :
    ¬(initState.error.isSome ∧ initState.definition.isSome) ∧
    (renderContent initState = .loading ∨
      (∃ m, renderContent initState = .errorView m) ∨
      (∃ t d, renderContent initState = .result t d) ∨
      renderContent initState = .initial) :=
  C9_view_state_invariant initState Reachable.init

/-- C10: the empty string matches neither error prefix, so the
Controller stores it as the definition, yet the renderer shows the
Idle placeholder because the truthiness check treats the empty
definition as absent. -/
theorem C10_empty_definition_renders_initial (t : String) (s : AppState) :
    (jsStartsWith "" apiErrorPrefix || jsStartsWith "" unknownErrorPrefix) = false ∧
    (handleResult (.ok "") (startSearch t s)).definition = some "" ∧
    renderContent (handleResult (.ok "") (startSearch t s)) = .initial := by
  have hp : (jsStartsWith "" apiErrorPrefix || jsStartsWith "" unknownErrorPrefix) = false := by
    decide
  refine ⟨hp, ?_, ?_⟩ <;> simp [handleResult, startSearch, renderContent, truthy, hp]
